import Mathlib

/-!
Verification of the CareerBridge job-board application (single file `app.py`).

The backend logic consists of three functions:
* `fetch_jobs_from_notion` — queries the remote database, extracts a job
  listing per returned page (fail-open defaults for absent properties),
  returns `[]` on 401 and on any exception;
* `post_job_to_notion` — builds a create-page payload from six strings and
  returns `True` exactly when the transport answers HTTP 200;
* `get_career_guidance` — builds a fixed prompt from the student profile and
  the serialized job market data, returning a fixed fallback string when the
  model call throws.

The embedding models Python values that appear in these functions as a `Json`
inductive, Python exceptions as `Except PyErr`, and the network as an
explicit transport outcome passed in as a parameter.
-/

/-- A single quote character, as a string. -/
def squote : String := String.singleton (Char.ofNat 39)

/-- A backslash character, as a string. -/
def bs : String := "\\"

/-- Python/JSON values as they occur in the program: strings, integers,
booleans, `None`, lists and (insertion-ordered) dicts with string keys. -/
inductive Json where
  | str : String → Json
  | num : Int → Json
  | bool : Bool → Json
  | null : Json
  | arr : List Json → Json
  | obj : List (String × Json) → Json

/-- Python exception kinds raised by the modelled code paths. -/
inductive PyErr where
  | attributeError
  | keyError
  | typeError
  | indexError
  | connectionError
  | jsonDecodeError
deriving DecidableEq

/-- Python `d.get(k, default)`: on a dict, the value at `k` or the default;
on any other receiver the attribute lookup raises `AttributeError`.
(The program only builds dicts without duplicate keys, so first-match
lookup coincides with Python dict lookup.) -/
def Json.getD (j : Json) (k : String) (d : Json) : Except PyErr Json :=
  match j with
  | .obj kvs => .ok ((kvs.lookup k).getD d)
  | _ => .error .attributeError

/-- Python `x[0]`: first element of a list, first character of a nonempty
string (as a 1-character string), `IndexError` when empty, `TypeError` on
non-subscriptable values. -/
def Json.subscriptZero : Json → Except PyErr Json
  | .arr [] => .error .indexError
  | .arr (x :: _) => .ok x
  | .str s =>
    match s.toList with
    | [] => .error .indexError
    | c :: _ => .ok (.str (String.singleton c))
  | _ => .error .typeError

/-- Python `x[k]` for a string key `k`: dict item lookup (`KeyError` when
absent), `TypeError` on a non-dict. -/
def Json.item (j : Json) (k : String) : Except PyErr Json :=
  match j with
  | .obj kvs =>
    match kvs.lookup k with
    | some v => .ok v
    | none => .error .keyError
  | _ => .error .typeError

/-- Python truthiness of the modelled values. -/
def Json.truthy : Json → Bool
  | .str s => !s.isEmpty
  | .num n => n != 0
  | .bool b => b
  | .null => false
  | .arr xs => !xs.isEmpty
  | .obj kvs => !kvs.isEmpty

/-- Python `for x in j`: lists yield their elements, strings their
characters, dicts their keys; other values raise `TypeError`. -/
def Json.iterate : Json → Except PyErr (List Json)
  | .arr xs => .ok xs
  | .str s => .ok (s.toList.map (fun c => Json.str (String.singleton c)))
  | .obj kvs => .ok (kvs.map (fun kv => Json.str kv.1))
  | _ => .error .typeError

/-- Escaping of one character inside a Python `repr` string (model: escapes
backslash, the quote character, and common control characters). -/
def reprEscapeChar (c : Char) : String :=
  if c = Char.ofNat 92 then bs ++ bs
  else if c = Char.ofNat 39 then bs ++ squote
  else if c = Char.ofNat 10 then bs ++ "n"
  else if c = Char.ofNat 13 then bs ++ "r"
  else if c = Char.ofNat 9 then bs ++ "t"
  else String.singleton c

/-- Escaping of a whole string for Python `repr`. -/
def reprEscape (s : String) : String :=
  String.join (s.toList.map reprEscapeChar)

mutual

/-- Python `repr` of the modelled values (model: strings always use single
quotes; dict/list reprs use the standard separators). -/
def pyRepr : Json → String
  | .str s => squote ++ reprEscape s ++ squote
  | .num n => toString n
  | .bool b => if b then "True" else "False"
  | .null => "None"
  | .arr xs => "[" ++ pyReprItems xs ++ "]"
  | .obj kvs => "\x7b" ++ pyReprFields kvs ++ "\x7d"

/-- `repr` of list elements joined by a comma and space. -/
def pyReprItems : List Json → String
  | [] => ""
  | [x] => pyRepr x
  | x :: y :: xs => pyRepr x ++ ", " ++ pyReprItems (y :: xs)

/-- `repr` of dict entries joined by a comma and space. -/
def pyReprFields : List (String × Json) → String
  | [] => ""
  | [(k, v)] => squote ++ reprEscape k ++ squote ++ ": " ++ pyRepr v
  | (k, v) :: f :: fs =>
    squote ++ reprEscape k ++ squote ++ ": " ++ pyRepr v ++ ", " ++ pyReprFields (f :: fs)

end

/-- Python `str()` as used by f-string interpolation: strings verbatim,
everything else via `repr` (model: matches CPython for dicts/lists of
strings, which is all the program interpolates). -/
def pyStr : Json → String
  | .str s => s
  | j => pyRepr j

/-- Escaping of one character for `json.dumps` (model: escapes the double
quote, backslash, and common control characters; `ensure_ascii` escaping of
non-ASCII characters is not modelled). -/
def jsonEscapeChar (c : Char) : String :=
  if c = Char.ofNat 34 then bs ++ String.singleton (Char.ofNat 34)
  else if c = Char.ofNat 92 then bs ++ bs
  else if c = Char.ofNat 10 then bs ++ "n"
  else if c = Char.ofNat 13 then bs ++ "r"
  else if c = Char.ofNat 9 then bs ++ "t"
  else String.singleton c

/-- Escaping of a whole string for `json.dumps`. -/
def jsonEscape (s : String) : String :=
  String.join (s.toList.map jsonEscapeChar)

mutual

/-- `json.dumps` with default arguments (separators comma-space and
colon-space). -/
def json_dumps : Json → String
  | .str s => String.singleton (Char.ofNat 34) ++ jsonEscape s ++ String.singleton (Char.ofNat 34)
  | .num n => toString n
  | .bool b => if b then "true" else "false"
  | .null => "null"
  | .arr xs => "[" ++ jsonDumpsItems xs ++ "]"
  | .obj kvs => "\x7b" ++ jsonDumpsFields kvs ++ "\x7d"

/-- `json.dumps` of array elements joined by a comma and space. -/
def jsonDumpsItems : List Json → String
  | [] => ""
  | [x] => json_dumps x
  | x :: y :: xs => json_dumps x ++ ", " ++ jsonDumpsItems (y :: xs)

/-- `json.dumps` of object entries joined by a comma and space. -/
def jsonDumpsFields : List (String × Json) → String
  | [] => ""
  | [(k, v)] =>
    String.singleton (Char.ofNat 34) ++ jsonEscape k ++ String.singleton (Char.ofNat 34) ++ ": " ++ json_dumps v
  | (k, v) :: f :: fs =>
    String.singleton (Char.ofNat 34) ++ jsonEscape k ++ String.singleton (Char.ofNat 34) ++ ": " ++ json_dumps v ++ ", " ++ jsonDumpsFields (f :: fs)

end

/-- The dict appended to `jobs` for each page in `fetch_jobs_from_notion`:
`role` is the f-string combining title and role detail (hence always a
string); the other three fields hold whatever value the extraction
produced. -/
structure JobListing where
  role : String
  company : Json
  skills : Json
  description : Json

/-- The repeated per-property extraction pattern of `fetch_jobs_from_notion`
(app.py lines 98-115): `props.get(key, dict()).get(kind, list())`, then the
conditional expression taking the first fragment item `plain_text` when the
fragment list is truthy and the default otherwise. -/
def first_fragment_text (props : Json) (key kind : String) (dflt : Json) : Except PyErr Json :=
  match props.getD key (Json.obj []) with
  | .error e => .error e
  | .ok p =>
    match p.getD kind (Json.arr []) with
    | .error e => .error e
    | .ok lst =>
      if lst.truthy then
        match lst.subscriptZero with
        | .error e => .error e
        | .ok frag => frag.item ("plain_text")
      else
        .ok dflt

/-- The loop body of `fetch_jobs_from_notion` for one `page` of the results
array (app.py lines 92-122): extracts the five properties with their
documented defaults and builds the job dict, with `role` set to the f-string
combining title and role detail. -/
def extract_page (page : Json) : Except PyErr JobListing :=
  match page.getD ("properties") (Json.obj []) with
  | .error e => .error e
  | .ok props =>
    match first_fragment_text props ("Title") ("title") (Json.str ("Untitled")) with
    | .error e => .error e
    | .ok job_title =>
      match first_fragment_text props ("Role") ("rich_text") (Json.str ("")) with
      | .error e => .error e
      | .ok role_detail =>
        match first_fragment_text props ("Company") ("rich_text") (Json.str ("Unknown")) with
        | .error e => .error e
        | .ok company =>
          match first_fragment_text props ("Required Skills") ("rich_text") (Json.str ("")) with
          | .error e => .error e
          | .ok skills =>
            match first_fragment_text props ("Description") ("rich_text") (Json.str ("")) with
            | .error e => .error e
            | .ok desc =>
              .ok (JobListing.mk (pyStr job_title ++ " - " ++ pyStr role_detail)
                company skills desc)

/-- The `for page in data.get("results", [])` loop: listings accumulate in
order; an exception from any page aborts the whole loop (the accumulated
list is discarded by the enclosing handler). -/
def extract_all : List Json → Except PyErr (List JobListing)
  | [] => .ok []
  | p :: ps =>
    match extract_page p with
    | .error e => .error e
    | .ok j =>
      match extract_all ps with
      | .error e => .error e
      | .ok rest => .ok (j :: rest)

/-- Outcome of the `requests.post` call in `fetch_jobs_from_notion`: either
the call raised, or a response arrived with a status code and a body whose
`json()` decoding yields `some` value or (for an invalid body) raises. -/
inductive FetchOutcome where
  | exn
  | resp (status : Int) (body : Option Json)

/-- The body of the `try` block of `fetch_jobs_from_notion` (app.py lines
83-123): a 401 returns `[]` before the body is decoded; otherwise the body
is decoded (raising on invalid JSON), `data.get("results", [])` is read,
iterated, and each page extracted. -/
def fetch_attempt : FetchOutcome → Except PyErr (List JobListing)
  | .exn => .error .connectionError
  | .resp status body =>
    if status = 401 then .ok []
    else
      match body with
      | none => .error .jsonDecodeError
      | some data =>
        match data.getD ("results") (Json.arr []) with
        | .error e => .error e
        | .ok results =>
          match results.iterate with
          | .error e => .error e
          | .ok pages => extract_all pages

/-- `fetch_jobs_from_notion` (app.py lines 79-126): the `except Exception`
handler converts every raised exception into `[]`. -/
def fetch_jobs_from_notion (t : FetchOutcome) : List JobListing :=
  match fetch_attempt t with
  | .ok jobs => jobs
  | .error _ => []

/-- The `text`/`content` wrapper used for each property value in the
create-page payload. -/
def text_content (s : String) : Json :=
  Json.obj [("text", Json.obj [("content", Json.str s)])]

/-- The `payload` dict of `post_job_to_notion` (app.py lines 131-142). -/
def post_request_payload (db_id : Json) (title role_detail company skills description contact : String) : Json :=
  Json.obj [
    ("parent", Json.obj [("database_id", db_id)]),
    ("properties", Json.obj [
      ("Title", Json.obj [("title", Json.arr [text_content title])]),
      ("Role", Json.obj [("rich_text", Json.arr [text_content role_detail])]),
      ("Company", Json.obj [("rich_text", Json.arr [text_content company])]),
      ("Required Skills", Json.obj [("rich_text", Json.arr [text_content skills])]),
      ("Description", Json.obj [("rich_text", Json.arr [text_content description])]),
      ("Contact", Json.obj [("rich_text", Json.arr [text_content contact])])
    ])
  ]

/-- Outcome of the `requests.post` call in `post_job_to_notion`: raised, or
a response with a status code and text. -/
inductive PostOutcome where
  | exn
  | resp (status : Int) (text : String)

/-- `post_job_to_notion` (app.py lines 128-154): builds the payload, sends
it, returns `True` on status 200, `False` on any other status, and `False`
when the transport raises. `send` is the network: the outcome of posting a
given JSON body. -/
def post_job_to_notion (send : Json → PostOutcome) (db_id : Json)
    (title role_detail company skills description contact : String) : Bool :=
  match send (post_request_payload db_id title role_detail company skills description contact) with
  | .exn => false
  | .resp status _ => if status = 200 then true else false

/-- Python positional-call semantics for `post_job_to_notion`: the function
has exactly six parameters, so calling it with any other number of
positional arguments raises `TypeError` before the body runs. -/
def post_job_call (send : Json → PostOutcome) (db_id : Json) (args : List String) : Except PyErr Bool :=
  match args with
  | [a, b, c, d, e, f] => .ok (post_job_to_notion send db_id a b c d e f)
  | _ => .error .typeError

/-- The positional argument list of the recruiter-view call site
`post_job_to_notion(role_title, company_name, req_skills, job_desc,
contact_info)` (app.py line 215), as a function of the five collected UI
values. -/
def recruiter_call_arguments (company_name role_title contact_info req_skills job_desc : String) : List String :=
  [role_title, company_name, req_skills, job_desc, contact_info]

/-- The parameter list of `post_job_to_notion` (app.py line 128), in
declaration order. -/
def post_job_parameter_names : List String :=
  ["title", "role_detail", "company", "skills", "description", "contact"]

/-- First part of the prompt f-string of `get_career_guidance` (app.py lines
162-165), up to the interpolated student profile. -/
def prompt_header : String :=
  "\n    You are an expert AI Career Counselor. \n    \n    1. ANALYZE the Student Profile:\n    "

/-- Middle part of the prompt f-string (app.py lines 166-168), between the
two interpolations. -/
def prompt_middle : String :=
  "\n    \n    2. ANALYZE the Current Job Market (data fetched from real-time database):\n    "

/-- Final part of the prompt f-string (app.py lines 170-178). -/
def prompt_tail : String :=
  "\n    \n    3. PROVIDE OUTPUT in strictly valid Markdown format:\n    - **Match Analysis**: Compare the student" ++ squote ++ "s skills to the specific jobs listed in the market data.\n    - **Skill Gap**: Identify exactly what skills (Python, SQL, Communication, etc.) the student lacks for the best matching roles.\n    - **Recommended Jobs**: List the top 2-3 specific roles from the market data that fit best.\n    - **Learning Path**: A short, bulleted list of what they should learn next.\n    \n    Tone: Encouraging, professional, and specific.\n    "

/-- The `prompt` f-string of `get_career_guidance` (app.py lines 162-178):
interpolates `str(student_profile)` and `json.dumps(job_market_data)` into
the fixed template. -/
def build_prompt (student_profile job_market_data : Json) : String :=
  prompt_header ++ pyStr student_profile ++ prompt_middle ++ json_dumps job_market_data ++ prompt_tail

/-- Outcome of `model.generate_content(prompt).text`: the produced text, or
a raised exception. -/
inductive GenOutcome where
  | ok (text : String)
  | exn

/-- The fixed fallback string returned by `get_career_guidance` when the
model call raises (app.py line 183). -/
def fallback_message : String :=
  "Sorry, I couldn" ++ squote ++ "t generate an analysis at this moment."

/-- `get_career_guidance` (app.py lines 157-183): builds the prompt, calls
the model, returns its text, and returns the fixed fallback on any
exception. `generate_content` is the model: the outcome for a given
prompt. -/
def get_career_guidance (generate_content : String → GenOutcome)
    (student_profile job_market_data : Json) : String :=
  match generate_content (build_prompt student_profile job_market_data) with
  | .ok text => text
  | .exn => fallback_message

/-- The shape of one of the five extracted properties of a page: absent from
the properties dict, present with an empty fragment list, or present with a
first fragment carrying `plain_text` `s`. These are exactly the shapes the
extraction handles without raising. -/
inductive FieldShape where
  | missing
  | emptyFrags
  | text (s : String)

/-- The properties-dict entries contributed by one field of the given
shape. -/
def shape_entries (key kind : String) : FieldShape → List (String × Json)
  | .missing => []
  | .emptyFrags => [(key, Json.obj [(kind, Json.arr [])])]
  | .text s => [(key, Json.obj [(kind, Json.arr [Json.obj [("plain_text", Json.str s)]])])]

/-- A page whose five properties have the given shapes. -/
def page_of_shapes (t r c sk d : FieldShape) : Json :=
  Json.obj [("properties", Json.obj (
    shape_entries ("Title") ("title") t ++
    shape_entries ("Role") ("rich_text") r ++
    shape_entries ("Company") ("rich_text") c ++
    shape_entries ("Required Skills") ("rich_text") sk ++
    shape_entries ("Description") ("rich_text") d))]

/-- The extracted value of a field of the given shape: the documented
default when the property is missing or its fragment list is empty, the
fragment text otherwise. -/
def field_value (dflt : String) : FieldShape → String
  | .missing => dflt
  | .emptyFrags => dflt
  | .text s => s

/-- A page whose `Company` property is present but malformed: its fragment
list is nonempty and the first fragment lacks the `plain_text` key. -/
def malformed_company_page : Json :=
  Json.obj [("properties", Json.obj [("Company", Json.obj [("rich_text", Json.arr [Json.obj []])])])]

/-- A response body whose results array holds only the malformed page. -/
def malformed_company_response : Json :=
  Json.obj [("results", Json.arr [malformed_company_page])]

/-- The end-to-end scenario 2 page: `Title` first fragment `Intern`, `Role`
first fragment `Backend`, `Company` (and the remaining properties)
absent. -/
def intern_page : Json :=
  Json.obj [("properties", Json.obj [
    ("Title", Json.obj [("title", Json.arr [Json.obj [("plain_text", Json.str ("Intern"))]])]),
    ("Role", Json.obj [("rich_text", Json.arr [Json.obj [("plain_text", Json.str ("Backend"))]])])])]

/-- A response body holding a well-formed page followed by the malformed
one. -/
def mixed_response : Json :=
  Json.obj [("results", Json.arr [intern_page, malformed_company_page])]

/-- C1 counterexample: a present-but-malformed property does not fail open
to its default. On a response whose single page has a `Company` property
whose first fragment lacks `plain_text`, extraction raises `KeyError` and
`fetch_jobs_from_notion` returns the empty list — no `JobListing` with
`company = "Unknown"` (or any listing at all) is returned, contrary to the
claim that each field independently takes its default on malformed
shapes. -/
theorem c1_counterexample :
    extract_page malformed_company_page = Except.error PyErr.keyError ∧
    fetch_jobs_from_notion (FetchOutcome.resp 200 (some malformed_company_response)) = [] ∧
    fetch_jobs_from_notion (FetchOutcome.resp 200 (some malformed_company_response)) ≠
      [JobListing.mk ("Untitled - ") (Json.str ("Unknown")) (Json.str ("")) (Json.str (""))] := by
  refine ⟨rfl, rfl, ?_⟩
  intro h
  exact List.noConfusion h

/-- C1 (amended): each of the five fields independently takes its documented
default (`Untitled`, `Unknown`, or the empty string) exactly when its
property is missing or its fragment list is empty; a well-shaped first
fragment yields its text. (The unamended claim extended this to malformed
fragment shapes, which instead raise and empty the whole fetch.) -/
theorem c1_field_defaults (t r c sk d : FieldShape) :
    extract_page (page_of_shapes t r c sk d) =
      Except.ok (JobListing.mk
        (field_value ("Untitled") t ++ " - " ++ field_value ("") r)
        (Json.str (field_value ("Unknown") c))
        (Json.str (field_value ("") sk))
        (Json.str (field_value ("") d))) := by
  cases t <;> cases r <;> cases c <;> cases sk <;> cases d <;> rfl

/-- C8: a response with one page whose `Title` first fragment is `Intern`,
`Role` first fragment is `Backend`, and `Company` absent yields exactly one
listing with role line `Intern - Backend`, company `Unknown`, and empty
skills and description. -/
theorem c8_intern_backend :
    fetch_jobs_from_notion (FetchOutcome.resp 200 (some (Json.obj [("results", Json.arr [intern_page])]))) =
      [JobListing.mk ("Intern - Backend") (Json.str ("Unknown")) (Json.str ("")) (Json.str (""))] := by
  rfl

/-- C3: `fetch_jobs_from_notion` returns the empty list whenever the
transport raises, whenever the response body fails to decode as JSON, and
whenever the status is 401 — and in each case no exception reaches the
caller (the function totally returns a list). -/
theorem c3_fetch_failure_empty (t : FetchOutcome)
    (h : t = FetchOutcome.exn ∨ (∃ s, t = FetchOutcome.resp s none) ∨
      (∃ b, t = FetchOutcome.resp 401 b)) :
    fetch_jobs_from_notion t = [] := by
  rcases h with h | ⟨s, h⟩ | ⟨b, h⟩
  · subst h; rfl
  · subst h
    by_cases h401 : s = 401 <;>
      simp [fetch_jobs_from_notion, fetch_attempt, h401]
  · subst h
    rfl

/-- C3 witness: at the concrete failing transports — a raised request, an
invalid-JSON body with status 200, and a 401 with a decodable body — the
fetch returns the empty list. -/
theorem c3_witness :
    fetch_jobs_from_notion FetchOutcome.exn = [] ∧
    fetch_jobs_from_notion (FetchOutcome.resp 200 none) = [] ∧
    fetch_jobs_from_notion (FetchOutcome.resp 401 (some (Json.obj []))) = [] :=
  ⟨c3_fetch_failure_empty FetchOutcome.exn (Or.inl rfl),
   c3_fetch_failure_empty (FetchOutcome.resp 200 none) (Or.inr (Or.inl ⟨200, rfl⟩)),
   c3_fetch_failure_empty (FetchOutcome.resp 401 (some (Json.obj []))) (Or.inr (Or.inr ⟨some (Json.obj []), rfl⟩))⟩

/-- When every page of the results list extracts successfully, the loop
returns the listings in order, one per page. -/
theorem extract_all_forall2 (pages : List Json)
    (hok : ∀ p ∈ pages, ∃ j, extract_page p = Except.ok j) :
    ∃ js, extract_all pages = Except.ok js ∧
      List.Forall₂ (fun p j => extract_page p = Except.ok j) pages js := by
  induction pages with
  | nil => exact ⟨[], rfl, List.Forall₂.nil⟩
  | cons p ps ih =>
    obtain ⟨j, hj⟩ := hok p (List.mem_cons_self p ps)
    obtain ⟨js, hjs, hf⟩ := ih (fun q hq => hok q (List.mem_cons_of_mem p hq))
    refine ⟨j :: js, ?_, List.Forall₂.cons hj hf⟩
    simp [extract_all, hj, hjs]

/-- When any single page of the results list fails to extract, the loop
raises (so the accumulated listings are discarded by the caller). -/
theorem extract_all_error (pages : List Json) (p : Json) (hp : p ∈ pages)
    (he : ∃ e, extract_page p = Except.error e) :
    ∃ e, extract_all pages = Except.error e := by
  induction pages with
  | nil => cases hp
  | cons q ps ih =>
    cases hq : extract_page q with
    | error e => exact ⟨e, by simp [extract_all, hq]⟩
    | ok j =>
      rcases List.mem_cons.mp hp with h | h
      · subst h
        obtain ⟨e, he⟩ := he
        rw [he] at hq
        exact Except.noConfusion hq
      · obtain ⟨e, hrec⟩ := ih h
        exact ⟨e, by simp [extract_all, hq, hrec]⟩

/-- C7: for a valid response (non-401 status, decoded JSON body whose
results value is an array, every page extracting successfully),
`fetch_jobs_from_notion` returns exactly one listing per page of the
results array — the listing extracted from that page — in the same order,
so in particular the lengths agree. -/
theorem c7_one_listing_per_page (status : Int) (data : Json) (pages : List Json)
    (hs : status ≠ 401)
    (hr : data.getD ("results") (Json.arr []) = Except.ok (Json.arr pages))
    (hok : ∀ p ∈ pages, ∃ j, extract_page p = Except.ok j) :
    List.Forall₂ (fun p j => extract_page p = Except.ok j) pages
      (fetch_jobs_from_notion (FetchOutcome.resp status (some data))) ∧
    (fetch_jobs_from_notion (FetchOutcome.resp status (some data))).length = pages.length := by
  obtain ⟨js, hjs, hf⟩ := extract_all_forall2 pages hok
  have hfetch : fetch_jobs_from_notion (FetchOutcome.resp status (some data)) = js := by
    simp [fetch_jobs_from_notion, fetch_attempt, hs, hr, Json.iterate, hjs]
  rw [hfetch]
  exact ⟨hf, hf.length_eq.symm⟩

/-- C7 witness: a concrete valid response holding the single well-formed
`intern_page` produces exactly its listing. -/
theorem c7_witness :
    List.Forall₂ (fun p j => extract_page p = Except.ok j) [intern_page]
      (fetch_jobs_from_notion (FetchOutcome.resp 200 (some (Json.obj [("results", Json.arr [intern_page])])))) ∧
    (fetch_jobs_from_notion (FetchOutcome.resp 200 (some (Json.obj [("results", Json.arr [intern_page])])))).length =
      ([intern_page] : List Json).length :=
  c7_one_listing_per_page 200 (Json.obj [("results", Json.arr [intern_page])]) [intern_page]
    (by decide) rfl
    (by
      intro p hp
      rw [List.mem_singleton] at hp
      subst hp
      exact ⟨JobListing.mk ("Intern - Backend") (Json.str ("Unknown")) (Json.str ("")) (Json.str ("")), rfl⟩)

/-- C10: if any single page of the results array fails to extract, the
whole fetch returns the empty list — listings already extracted from
earlier pages are discarded, so extraction failure is all-or-nothing across
the response. -/
theorem c10_page_failure_empties_fetch (status : Int) (data : Json) (pages : List Json) (p : Json)
    (hs : status ≠ 401)
    (hr : data.getD ("results") (Json.arr []) = Except.ok (Json.arr pages))
    (hp : p ∈ pages)
    (he : ∃ e, extract_page p = Except.error e) :
    fetch_jobs_from_notion (FetchOutcome.resp status (some data)) = [] := by
  obtain ⟨e, herr⟩ := extract_all_error pages p hp he
  simp [fetch_jobs_from_notion, fetch_attempt, hs, hr, Json.iterate, herr]

/-- C10 witness: a response holding a well-formed page (which alone would
yield a listing, see the C8 theorem) followed by the malformed page fetches
to the empty list. -/
theorem c10_witness :
    fetch_jobs_from_notion (FetchOutcome.resp 200 (some mixed_response)) = [] :=
  c10_page_failure_empties_fetch 200 mixed_response [intern_page, malformed_company_page]
    malformed_company_page (by decide) rfl
    (List.Mem.tail intern_page (List.Mem.head []))
    ⟨PyErr.keyError, rfl⟩

/-- A top-level key lookup on a JSON object, used to state which property
map a payload carries. -/
def Json.lookupKey (j : Json) (k : String) : Option Json :=
  match j with
  | .obj kvs => kvs.lookup k
  | _ => none

/-- The property map documented by the spec for the create operation:
`Title` as a title property and `Role`, `Company`, `Required Skills`,
`Description`, `Contact` as rich_text properties, each wrapping the
corresponding input string. Written from the spec wording, to be compared
with the payload built by `post_request_payload`. -/
def spec_documented_properties (title role_detail company skills description contact : String) : Json :=
  Json.obj [
    ("Title", Json.obj [("title", Json.arr [Json.obj [("text", Json.obj [("content", Json.str title)])]])]),
    ("Role", Json.obj [("rich_text", Json.arr [Json.obj [("text", Json.obj [("content", Json.str role_detail)])]])]),
    ("Company", Json.obj [("rich_text", Json.arr [Json.obj [("text", Json.obj [("content", Json.str company)])]])]),
    ("Required Skills", Json.obj [("rich_text", Json.arr [Json.obj [("text", Json.obj [("content", Json.str skills)])]])]),
    ("Description", Json.obj [("rich_text", Json.arr [Json.obj [("text", Json.obj [("content", Json.str description)])]])]),
    ("Contact", Json.obj [("rich_text", Json.arr [Json.obj [("text", Json.obj [("content", Json.str contact)])]])])]

/-- C2: for every transport outcome, `post_job_to_notion` returns `true`
exactly when the transport answers the sent payload with HTTP 200 (hence
`false` for every other status and for a raised transport call), and the
payload it sends carries exactly the documented property map. -/
theorem c2_create_contract (send : Json → PostOutcome) (db_id : Json)
    (title role_detail company skills description contact : String) :
    (post_job_to_notion send db_id title role_detail company skills description contact = true ↔
      ∃ txt, send (post_request_payload db_id title role_detail company skills description contact) =
        PostOutcome.resp 200 txt) ∧
    (post_request_payload db_id title role_detail company skills description contact).lookupKey ("properties") =
      some (spec_documented_properties title role_detail company skills description contact) := by
  constructor
  · unfold post_job_to_notion
    cases h : send (post_request_payload db_id title role_detail company skills description contact) with
    | exn => simp
    | resp s txt => by_cases h200 : s = 200 <;> simp [h200]
  · rfl

/-- C6 counterexample: the scenario calls the six-parameter create function
with only five positional arguments, so under Python call semantics the
call raises `TypeError` — it does not return `false`, and an exception does
escape. -/
theorem c6_counterexample :
    post_job_call (fun _ => PostOutcome.resp 400 ("")) Json.null
        ["Dev", "Acme", "Python, SQL", "Build things", "a@b.com"] =
      Except.error PyErr.typeError ∧
    post_job_call (fun _ => PostOutcome.resp 400 ("")) Json.null
        ["Dev", "Acme", "Python, SQL", "Build things", "a@b.com"] ≠
      Except.ok false := by
  refine ⟨rfl, ?_⟩
  intro h
  exact Except.noConfusion h

/-- C6 (amended): with a sixth `contact` argument supplied, calling create
on those strings while the transport answers HTTP 400 returns `false` and
no exception escapes. -/
theorem c6_amended_create_400_false (contact txt : String) (db_id : Json) :
    post_job_call (fun _ => PostOutcome.resp 400 txt) db_id
        (["Dev", "Acme", "Python, SQL", "Build things", "a@b.com"] ++ [contact]) =
      Except.ok false := by
  rfl

/-- C5: zipping the parameter list of `post_job_to_notion` with the
positional arguments of the recruiter-view call site shows the collected
job role/title landing in the `title` slot and the collected company name
landing in the `role_detail` slot (and skills, description, contact shifted
into the `company`, `skills`, `description` slots, with no argument for
`contact`). -/
theorem c5_call_site_field_swap (company_name role_title contact_info req_skills job_desc : String) :
    List.zip post_job_parameter_names
        (recruiter_call_arguments company_name role_title contact_info req_skills job_desc) =
      [("title", role_title), ("role_detail", company_name), ("company", req_skills),
        ("skills", job_desc), ("description", contact_info)] := by
  rfl

/-- C4: whenever the model call raises on the constructed prompt,
`get_career_guidance` returns exactly the fixed fallback string — a
constant independent of the profile and listings. -/
theorem c4_fallback_on_model_failure (generate_content : String → GenOutcome)
    (student_profile job_market_data : Json)
    (h : generate_content (build_prompt student_profile job_market_data) = GenOutcome.exn) :
    get_career_guidance generate_content student_profile job_market_data = fallback_message := by
  unfold get_career_guidance
  rw [h]

/-- C4 witness: with a model that always raises, concrete inputs produce
exactly the fallback string. -/
theorem c4_witness :
    get_career_guidance (fun _ => GenOutcome.exn)
      (Json.obj [("name", Json.str ("A")), ("skills", Json.str ("Python")), ("interests", Json.str ("Data"))])
      (Json.arr []) = fallback_message :=
  c4_fallback_on_model_failure (fun _ => GenOutcome.exn)
    (Json.obj [("name", Json.str ("A")), ("skills", Json.str ("Python")), ("interests", Json.str ("Data"))])
    (Json.arr []) rfl

/-- C9: the prompt `get_career_guidance` builds is a pure function of the
profile and the listings — two invocations with equal profile and equal
listings construct byte-for-byte identical prompts. -/
theorem c9_prompt_deterministic (p p' l l' : Json) (hp : p = p') (hl : l = l') :
    build_prompt p l = build_prompt p' l' := by
  rw [hp, hl]

/-- C9 witness: two invocations on a concrete profile and listings list
yield the identical prompt. -/
theorem c9_witness :
    build_prompt (Json.obj [("skills", Json.str ("Python"))]) (Json.arr [Json.str ("job")]) =
      build_prompt (Json.obj [("skills", Json.str ("Python"))]) (Json.arr [Json.str ("job")]) :=
  c9_prompt_deterministic (Json.obj [("skills", Json.str ("Python"))])
    (Json.obj [("skills", Json.str ("Python"))])
    (Json.arr [Json.str ("job")]) (Json.arr [Json.str ("job")]) rfl rfl
